import Mathlib

/-!
Shallow embedding of the blog application in `src/main.py`.

The persistent store holds three tables (users, blog_posts, comments)
with auto-incrementing integer primary keys; a session is the optional
id of the logged-in user (flask_login keeps the user id in the cookie
and `load_user` resolves it against the users table on every request).
Password hashing and verification are opaque collaborators
(`generate_password_hash` / `check_password_hash`), so the operations
that use them take the hash or check function as an explicit argument.
Each route handler becomes a pure function from the store, the session
and the request data to an `Outcome`: the new store, the new session
and the HTTP-level response.
-/

namespace Blog

/-- Row of the `users` table (class `User` in `main.py`). -/
structure User where
  id : Nat
  email : String
  password : String
  name : String
deriving Repr, DecidableEq

/-- Row of the `blog_posts` table (class `BlogPost` in `main.py`). -/
structure BlogPost where
  id : Nat
  title : String
  subtitle : String
  date : String
  body : String
  img_url : String
  author_id : Nat
deriving Repr, DecidableEq

/-- Row of the `comments` table (class `Comment` in `main.py`). -/
structure Comment where
  id : Nat
  text : String
  author_id : Nat
  post_id : Nat
deriving Repr, DecidableEq

/-- The relational store `blog.db`: the three tables plus the
auto-increment counters that assign the next primary key. -/
structure Store where
  users : List User
  posts : List BlogPost
  comments : List Comment
  nextUserId : Nat
  nextPostId : Nat
  nextCommentId : Nat
deriving Repr, DecidableEq

/-- A session: the user id held in the signed login cookie, if any. -/
abbrev Session := Option Nat

/-- The flash messages the handlers attach to a redirect. -/
inductive FlashMsg
  | duplicateEmail
  | wrongPassword
  | noSuchEmail
  | mustLoginToComment
deriving Repr, DecidableEq

/-- Unhandled Python exceptions that the code lets propagate. -/
inductive PyError
  | attributeErrorNone
  | unmappedInstance
deriving Repr, DecidableEq

/-- The HTTP-level result a handler produces. -/
inductive Resp
  | redirectIndex
  | redirectLogin (msg : FlashMsg)
  | redirectPost (post_id : Nat)
  | forbidden403
  | crash (e : PyError)
deriving Repr, DecidableEq

/-- A handler invocation result: new store, new session, response. -/
structure Outcome where
  db : Store
  sess : Session
  resp : Resp
deriving Repr, DecidableEq

/-- `load_user` in `main.py`: resolve a user id to the users row. -/
def load_user (db : Store) (user_id : Nat) : Option User :=
  db.users.find? (fun u => u.id == user_id)

/-- `current_user`: resolve the session cookie to a User, or none. -/
def currentUser (db : Store) (sess : Session) : Option User :=
  sess.bind (load_user db)

/-- `current_user.is_authenticated`. -/
def isAuthenticated (db : Store) (sess : Session) : Bool :=
  (currentUser db sess).isSome

/-- The `admin_only` decorator: abort 403 unless the current user is
authenticated and has id 1, otherwise run the wrapped handler. -/
def admin_only (f : Store → Session → Outcome) (db : Store) (sess : Session) : Outcome :=
  match currentUser db sess with
  | some u => if u.id == 1 then f db sess else ⟨db, sess, .forbidden403⟩
  | none => ⟨db, sess, .forbidden403⟩

/-- Whether the `admin_only` guard lets the session through. -/
def isAdmin (db : Store) (sess : Session) : Bool :=
  match currentUser db sess with
  | some u => u.id == 1
  | none => false

/-- `User.query.filter_by(email=...).first()`. -/
def findUserByEmail (db : Store) (email : String) : Option User :=
  db.users.find? (fun u => u.email == email)

/-- `BlogPost.query.get(post_id)`. -/
def getPost (db : Store) (post_id : Nat) : Option BlogPost :=
  db.posts.find? (fun p => p.id == post_id)

/-- The POST branch of the `register` route: hash the password, insert
the new user and log them in; a duplicate email raises IntegrityError,
which is caught and turned into a flash message and a redirect to
login, with no row inserted. -/
def register (gen : String → String) (db : Store) (sess : Session)
    (email rawPswd name : String) : Outcome :=
  if db.users.any (fun u => u.email == email) then
    ⟨db, sess, .redirectLogin .duplicateEmail⟩
  else
    let user : User := ⟨db.nextUserId, email, gen rawPswd, name⟩
    ⟨{ db with users := db.users ++ [user], nextUserId := db.nextUserId + 1 },
      some user.id, .redirectIndex⟩

/-- The POST branch of the `login` route: look the email up, check the
password hash, log in on success; distinct flash messages for a wrong
password and for an unknown email. -/
def login (chk : String → String → Bool) (db : Store) (sess : Session)
    (email rawPswd : String) : Outcome :=
  match findUserByEmail db email with
  | some user =>
    if chk user.password rawPswd then
      ⟨db, some user.id, .redirectIndex⟩
    else
      ⟨db, sess, .redirectLogin .wrongPassword⟩
  | none => ⟨db, sess, .redirectLogin .noSuchEmail⟩

/-- The `logout` route: `logout_user()` clears the session cookie
unconditionally, then redirects to the index page. -/
def logout (db : Store) (_sess : Session) : Outcome :=
  ⟨db, none, .redirectIndex⟩

/-- The POST branch of `show_post`: an authenticated user submits a
comment, which is inserted with the acting user id and the post id
from the URL; an anonymous caller is flashed a message and redirected
to login. No check that a post with `post_id` exists is made. -/
def addComment (db : Store) (sess : Session) (post_id : Nat) (text : String) : Outcome :=
  match currentUser db sess with
  | some user =>
    let c : Comment := ⟨db.nextCommentId, text, user.id, post_id⟩
    ⟨{ db with comments := db.comments ++ [c], nextCommentId := db.nextCommentId + 1 },
      sess, .redirectPost post_id⟩
  | none => ⟨db, sess, .redirectLogin .mustLoginToComment⟩

/-- The form fields of `CreatePostForm` used by the create and edit
handlers. -/
structure PostFields where
  title : String
  subtitle : String
  body : String
  img_url : String
deriving Repr, DecidableEq

/-- English month names, for `strftime`. Months are numbered 1 to 12. -/
def monthName : Nat → String
  | 1 => "January"
  | 2 => "February"
  | 3 => "March"
  | 4 => "April"
  | 5 => "May"
  | 6 => "June"
  | 7 => "July"
  | 8 => "August"
  | 9 => "September"
  | 10 => "October"
  | 11 => "November"
  | 12 => "December"
  | _ => ""

/-- Zero-padded two-digit day, as `strftime` `%d` renders it. -/
def pad2 (n : Nat) : String :=
  if n < 10 then "0" ++ toString n else toString n

/-- `date.today().strftime("%B %d, %Y")`: the creation date stamp. -/
def strftimeBdY (month day year : Nat) : String :=
  monthName month ++ " " ++ pad2 day ++ ", " ++ toString year

/-- The successful-submit branch of `add_new_post`, inside the
`admin_only` guard: build a BlogPost from the form fields, stamp the
date with today, set the author to the acting user, insert it and
redirect to the index. `today` is the formatted current date. -/
def add_new_post (db : Store) (sess : Session) (f : PostFields) (today : String) : Outcome :=
  admin_only (fun db sess =>
    match currentUser db sess with
    | some user =>
      let p : BlogPost :=
        ⟨db.nextPostId, f.title, f.subtitle, today, f.body, f.img_url, user.id⟩
      ⟨{ db with posts := db.posts ++ [p], nextPostId := db.nextPostId + 1 },
        sess, .redirectIndex⟩
    | none => ⟨db, sess, .forbidden403⟩) db sess

/-- Field replacement performed by `edit_post` on the row whose id is
`post_id`: title, subtitle, img_url and body take the form values;
id, date and author_id are not assigned. -/
def applyEdit (post_id : Nat) (f : PostFields) (q : BlogPost) : BlogPost :=
  if q.id == post_id then
    { q with title := f.title, subtitle := f.subtitle,
             img_url := f.img_url, body := f.body }
  else q

/-- The successful-submit branch of `edit_post`, inside the
`admin_only` guard: fetch the post by id, overwrite its four editable
fields, redirect to the post page. When no post has that id,
`BlogPost.query.get` returns None and the subsequent attribute access
`post.title` raises AttributeError, which propagates. -/
def edit_post (db : Store) (sess : Session) (post_id : Nat) (f : PostFields) : Outcome :=
  admin_only (fun db sess =>
    match getPost db post_id with
    | none => ⟨db, sess, .crash .attributeErrorNone⟩
    | some post =>
      ⟨{ db with posts := db.posts.map (applyEdit post_id f) },
        sess, .redirectPost post.id⟩) db sess

/-- The `delete_post` route, inside the `admin_only` guard: fetch the
post by id and delete that row; no Comment row is touched. When no
post has that id, `db.session.delete(None)` raises
UnmappedInstanceError, which propagates. -/
def delete_post (db : Store) (sess : Session) (post_id : Nat) : Outcome :=
  admin_only (fun db sess =>
    match getPost db post_id with
    | none => ⟨db, sess, .crash .unmappedInstance⟩
    | some _ =>
      ⟨{ db with posts := db.posts.filter (fun q => !(q.id == post_id)) },
        sess, .redirectIndex⟩) db sess

/-- Number of comment rows whose parent post is `post_id`
(`Comment.query.filter_by(post_id=post_id).all()` length). -/
def commentCount (db : Store) (post_id : Nat) : Nat :=
  (db.comments.filter (fun c => c.post_id == post_id)).length

/-- Referential integrity of comments: every comment row points to an
existing blog post. -/
def danglingFreeB (db : Store) : Bool :=
  db.comments.all (fun c => db.posts.any (fun p => p.id == c.post_id))

/-! Concrete sample data for witnesses. -/

/-- The first registered account, id 1. -/
def adminUser : User := ⟨1, "admin@blog.io", "h1", "Admin"⟩

/-- A second registered account, id 2. -/
def aliceUser : User := ⟨2, "alice@blog.io", "h2", "Alice"⟩

/-- An existing post authored by the admin. -/
def samplePost : BlogPost := ⟨1, "Hello World", "Sub", "May 01, 2024", "Body", "img", 1⟩

/-- An existing comment by alice on `samplePost`. -/
def sampleComment : Comment := ⟨1, "Nice post!", 2, 1⟩

/-- A small populated store. -/
def db0 : Store := ⟨[adminUser, aliceUser], [samplePost], [sampleComment], 3, 2, 2⟩

/-! Theorems about the claims. -/

/-- Claim C9: after `logout` the session resolves to no current user;
`logout` is unconditional and idempotent, and never touches the store. -/
theorem logout_clears_session (db : Store) (sess : Session) :
    logout db sess = ⟨db, none, .redirectIndex⟩ ∧
    currentUser db (logout db sess).sess = none ∧
    logout (logout db sess).db (logout db sess).sess = logout db sess ∧
    (logout db sess).db = db :=
  ⟨rfl, rfl, rfl, rfl⟩

/-- Claim C1: `add_new_post`, `edit_post` and `delete_post` go past the
`admin_only` guard exactly when the current user is the one with id 1;
every other caller, authenticated or not, gets a 403 response and the
store is unchanged. -/
theorem admin_gate (db : Store) (sess : Session) (f : PostFields)
    (today : String) (pid : Nat) :
    (isAdmin db sess = false →
      add_new_post db sess f today = ⟨db, sess, .forbidden403⟩ ∧
      edit_post db sess pid f = ⟨db, sess, .forbidden403⟩ ∧
      delete_post db sess pid = ⟨db, sess, .forbidden403⟩) ∧
    ((add_new_post db sess f today).resp ≠ .forbidden403 → isAdmin db sess = true) ∧
    ((edit_post db sess pid f).resp ≠ .forbidden403 → isAdmin db sess = true) ∧
    ((delete_post db sess pid).resp ≠ .forbidden403 → isAdmin db sess = true) ∧
    (isAdmin db sess = true ↔ ∃ u, currentUser db sess = some u ∧ u.id = 1) := by
  unfold isAdmin add_new_post edit_post delete_post admin_only
  cases hcu : currentUser db sess with
  | none => simp
  | some u =>
    by_cases hid : u.id == 1
    · have h1 : u.id = 1 := by simpa using hid
      cases hgp : getPost db pid <;> simp [hid, h1, hgp]
    · have h1 : u.id ≠ 1 := by simpa using hid
      simp [hid, h1]

/-- Witness for C1: in the sample store, alice (id 2) is rejected with
a 403 by the create-post handler and nothing changes. -/
theorem admin_gate_witness :
    add_new_post db0 (some 2) ⟨"t", "s", "b", "u"⟩ "d" =
      ⟨db0, some 2, .forbidden403⟩ :=
  ((admin_gate db0 (some 2) ⟨"t", "s", "b", "u"⟩ "d" 1).1 (by decide)).1

/-- Claim C2: registering with an email already present yields the
duplicate-email flash and redirect with the store (hence the existing
row) unchanged and no row inserted; registering with a fresh email
inserts exactly one new user and binds the session to its id. -/
theorem register_spec (gen : String → String) (db : Store) (sess : Session)
    (email pw nm : String) :
    (db.users.any (fun u => u.email == email) = true →
      register gen db sess email pw nm = ⟨db, sess, .redirectLogin .duplicateEmail⟩) ∧
    (db.users.any (fun u => u.email == email) = false →
      register gen db sess email pw nm =
        ⟨{ db with users := db.users ++ [⟨db.nextUserId, email, gen pw, nm⟩],
                   nextUserId := db.nextUserId + 1 },
          some db.nextUserId, .redirectIndex⟩) := by
  unfold register
  by_cases h : db.users.any (fun u => u.email == email) <;> simp [h]

/-- Witness for C2: registering alice's email a second time in the
sample store leaves it unchanged and flashes the duplicate message. -/
theorem register_spec_witness :
    register (fun s => s) db0 none "alice@blog.io" "pw" "Alice2" =
      ⟨db0, none, .redirectLogin .duplicateEmail⟩ :=
  (register_spec (fun s => s) db0 none "alice@blog.io" "pw" "Alice2").1 (by decide)

/-- Claim C3: login with a known email and a password the checker
accepts binds the session to that user's id; with a rejected password
it flashes the wrong-password message; with an unknown email it
flashes the distinct no-such-email message; the store is never
modified by login. -/
theorem login_spec (chk : String → String → Bool) (db : Store) (sess : Session)
    (email pw : String) :
    (∀ u, findUserByEmail db email = some u →
      (chk u.password pw = true →
        login chk db sess email pw = ⟨db, some u.id, .redirectIndex⟩) ∧
      (chk u.password pw = false →
        login chk db sess email pw = ⟨db, sess, .redirectLogin .wrongPassword⟩)) ∧
    (findUserByEmail db email = none →
      login chk db sess email pw = ⟨db, sess, .redirectLogin .noSuchEmail⟩) ∧
    FlashMsg.wrongPassword ≠ FlashMsg.noSuchEmail ∧
    (login chk db sess email pw).db = db := by
  unfold login
  cases h : findUserByEmail db email with
  | none => simp
  | some u =>
    by_cases hc : chk u.password pw <;> simp [hc]

/-- Witness for C3: alice logs in with the matching password in the
sample store, under the literal-equality checker. -/
theorem login_spec_witness :
    login (fun a b => a == b) db0 none "alice@blog.io" "h2" =
      ⟨db0, some 2, .redirectIndex⟩ :=
  ((login_spec (fun a b => a == b) db0 none "alice@blog.io" "h2").1
    aliceUser (by decide)).1 (by decide)

/-- Counterexample to C4 as stated: in the sample store, post id 2
exists in no row, yet `edit_post` and `delete_post` with the admin
session do not produce a NotFound response — the request fails with a
propagated exception (the None-record dereference). -/
theorem missing_post_crashes_cex :
    (edit_post db0 (some 1) 2 ⟨"t", "s", "b", "u"⟩).resp = .crash .attributeErrorNone ∧
    (delete_post db0 (some 1) 2).resp = .crash .unmappedInstance := by
  constructor <;> rfl

/-- Claim C4 (amended): for a post id present in no row, `getPost`
returns none; `edit_post` and `delete_post` with an admin session do
not return NotFound but let the missing-record dereference propagate
as an unhandled error, with the store unchanged. -/
theorem missing_post_behavior (db : Store) (sess : Session) (pid : Nat)
    (f : PostFields)
    (hadm : isAdmin db sess = true)
    (hmiss : ∀ q ∈ db.posts, q.id ≠ pid) :
    getPost db pid = none ∧
    edit_post db sess pid f = ⟨db, sess, .crash .attributeErrorNone⟩ ∧
    delete_post db sess pid = ⟨db, sess, .crash .unmappedInstance⟩ := by
  have hgp : getPost db pid = none := by
    unfold getPost
    rw [List.find?_eq_none]
    intro q hq
    simpa using hmiss q hq
  unfold isAdmin at hadm
  unfold edit_post delete_post admin_only
  cases hcu : currentUser db sess with
  | none => rw [hcu] at hadm; cases hadm
  | some u =>
    rw [hcu] at hadm
    have h1 : u.id = 1 := by simpa using hadm
    simp [h1, hgp]

/-- Witness for C4 (amended) at the sample store and missing id 2. -/
theorem missing_post_behavior_witness :
    getPost db0 2 = none ∧
    edit_post db0 (some 1) 2 ⟨"t", "s", "b", "u"⟩ =
      ⟨db0, some 1, .crash .attributeErrorNone⟩ ∧
    delete_post db0 (some 1) 2 = ⟨db0, some 1, .crash .unmappedInstance⟩ :=
  missing_post_behavior db0 (some 1) 2 ⟨"t", "s", "b", "u"⟩ (by decide) (by decide)

/-- The strftime date stamp is never the empty string. -/
theorem strftimeBdY_ne_empty (m d y : Nat) : strftimeBdY m d y ≠ "" := by
  unfold strftimeBdY
  intro h
  have hlen := congrArg String.length h
  rw [String.length_append, String.length_append, String.length_append,
      String.length_append] at hlen
  have hsp : (" " : String).length = 1 := rfl
  have hcm : (", " : String).length = 2 := rfl
  have hni : ("" : String).length = 0 := rfl
  rw [hsp, hcm, hni] at hlen
  omega

/-- Claim C5: creating a post as the admin and reading the assigned id
back yields a record whose title, subtitle, body and image URL are
exactly the submitted fields, whose author is the acting admin, and
whose date is the non-empty stamp of the current date. -/
theorem create_roundtrip (db : Store) (sess : Session) (f : PostFields)
    (month day year : Nat) (u : User)
    (hcu : currentUser db sess = some u) (hadm : u.id = 1)
    (hfresh : ∀ p ∈ db.posts, p.id ≠ db.nextPostId) :
    getPost (add_new_post db sess f (strftimeBdY month day year)).db db.nextPostId =
      some ⟨db.nextPostId, f.title, f.subtitle, strftimeBdY month day year,
            f.body, f.img_url, u.id⟩ ∧
    strftimeBdY month day year ≠ "" := by
  refine ⟨?_, strftimeBdY_ne_empty month day year⟩
  have hb : (u.id == 1) = true := by simp [hadm]
  have h1 : db.posts.find? (fun p => p.id == db.nextPostId) = none := by
    rw [List.find?_eq_none]
    intro q hq
    simpa using hfresh q hq
  unfold add_new_post admin_only getPost
  simp [hcu, hb, List.find?_append, h1]

/-- Witness for C5: the admin creates a post in the sample store and
reads it back at the assigned id. -/
theorem create_roundtrip_witness :
    getPost (add_new_post db0 (some 1) ⟨"T", "S", "B", "U"⟩
        (strftimeBdY 10 12 2026)).db db0.nextPostId =
      some ⟨db0.nextPostId, "T", "S", strftimeBdY 10 12 2026, "B", "U", 1⟩ ∧
    strftimeBdY 10 12 2026 ≠ "" :=
  create_roundtrip db0 (some 1) ⟨"T", "S", "B", "U"⟩ 10 12 2026 adminUser
    (by decide) rfl (by decide)

/-- Claim C6: editing an existing post as the admin rewrites the
posts table pointwise, replacing exactly title, subtitle, img_url and
body of the row with that id, keeping its author and date, leaving
every other post untouched, and leaving users and comments unchanged. -/
theorem edit_frame (db : Store) (sess : Session) (pid : Nat) (f : PostFields)
    (hadm : isAdmin db sess = true)
    (hpresent : ∃ p, getPost db pid = some p) :
    (edit_post db sess pid f).db.posts = db.posts.map (applyEdit pid f) ∧
    (edit_post db sess pid f).db.users = db.users ∧
    (edit_post db sess pid f).db.comments = db.comments ∧
    (∀ q : BlogPost, q.id ≠ pid → applyEdit pid f q = q) ∧
    (∀ q : BlogPost, q.id = pid →
      applyEdit pid f q =
        { q with title := f.title, subtitle := f.subtitle,
                 img_url := f.img_url, body := f.body }) ∧
    (∀ q : BlogPost, (applyEdit pid f q).author_id = q.author_id ∧
      (applyEdit pid f q).date = q.date ∧ (applyEdit pid f q).id = q.id) := by
  obtain ⟨p, hp⟩ := hpresent
  unfold isAdmin at hadm
  have hmain :
      (edit_post db sess pid f).db =
        { db with posts := db.posts.map (applyEdit pid f) } := by
    unfold edit_post admin_only
    cases hcu : currentUser db sess with
    | none => rw [hcu] at hadm; cases hadm
    | some u =>
      rw [hcu] at hadm
      have h1 : u.id = 1 := by simpa using hadm
      simp [h1, hp]
  refine ⟨by rw [hmain], by rw [hmain], by rw [hmain], ?_, ?_, ?_⟩
  · intro q hq
    unfold applyEdit
    simp [hq]
  · intro q hq
    unfold applyEdit
    simp [hq]
  · intro q
    unfold applyEdit
    by_cases hq : q.id == pid <;> simp [hq]

/-- Witness for C6: the admin edits post 1 in the sample store; the
comments table is untouched. -/
theorem edit_frame_witness :
    (edit_post db0 (some 1) 1 ⟨"T2", "S2", "B2", "U2"⟩).db.comments = db0.comments :=
  (edit_frame db0 (some 1) 1 ⟨"T2", "S2", "B2", "U2"⟩ (by decide)
    ⟨samplePost, by decide⟩).2.2.1

/-- Claim C7: a comment submitted by an authenticated user appends one
Comment row with the given text, the acting user as author and the
target post as parent, raising that post's comment count by exactly
one and no other post's; an anonymous submission changes nothing and
is redirected to login. -/
theorem addComment_counts (db : Store) (sess : Session) (pid : Nat) (t : String) :
    (∀ u, currentUser db sess = some u →
      (addComment db sess pid t).db.comments =
        db.comments ++ [⟨db.nextCommentId, t, u.id, pid⟩] ∧
      commentCount (addComment db sess pid t).db pid = commentCount db pid + 1 ∧
      (∀ q, q ≠ pid → commentCount (addComment db sess pid t).db q = commentCount db q)) ∧
    (currentUser db sess = none →
      addComment db sess pid t = ⟨db, sess, .redirectLogin .mustLoginToComment⟩) := by
  constructor
  · intro u hu
    unfold addComment
    rw [hu]
    refine ⟨rfl, ?_, ?_⟩
    · unfold commentCount
      simp [List.filter_append]
    · intro q hq
      have hqp : pid ≠ q := Ne.symm hq
      unfold commentCount
      simp [List.filter_append, hqp]
  · intro hu
    unfold addComment
    rw [hu]

/-- Witness for C7: alice comments on post 1 in the sample store; the
count for post 1 goes up by one. -/
theorem addComment_counts_witness :
    commentCount (addComment db0 (some 2) 1 "More").db 1 = commentCount db0 1 + 1 :=
  ((addComment_counts db0 (some 2) 1 "More").1 aliceUser (by decide)).2.1

/-- Claim C8: deleting an existing post as the admin removes exactly
the rows of that post id from the posts table and touches no Comment
row (each comment row, those of the deleted post included, remains)
and no User row. -/
theorem delete_frame (db : Store) (sess : Session) (pid : Nat)
    (hadm : isAdmin db sess = true)
    (hpresent : ∃ p, getPost db pid = some p) :
    (delete_post db sess pid).db.posts = db.posts.filter (fun q => !(q.id == pid)) ∧
    (delete_post db sess pid).db.comments = db.comments ∧
    (delete_post db sess pid).db.users = db.users ∧
    (∀ c ∈ db.comments, c ∈ (delete_post db sess pid).db.comments) ∧
    (∀ q ∈ db.posts, q.id ≠ pid → q ∈ (delete_post db sess pid).db.posts) ∧
    (∀ q ∈ (delete_post db sess pid).db.posts, q ∈ db.posts ∧ q.id ≠ pid) := by
  obtain ⟨p, hp⟩ := hpresent
  unfold isAdmin at hadm
  have hmain :
      (delete_post db sess pid).db =
        { db with posts := db.posts.filter (fun q => !(q.id == pid)) } := by
    unfold delete_post admin_only
    cases hcu : currentUser db sess with
    | none => rw [hcu] at hadm; cases hadm
    | some u =>
      rw [hcu] at hadm
      have h1 : u.id = 1 := by simpa using hadm
      simp [h1, hp]
  refine ⟨by rw [hmain], by rw [hmain], by rw [hmain], ?_, ?_, ?_⟩
  · intro c hc
    rw [hmain]
    exact hc
  · intro q hq hne
    rw [hmain]
    simp [List.mem_filter, hq, hne]
  · intro q hq
    rw [hmain] at hq
    simp [List.mem_filter] at hq
    exact ⟨hq.1, hq.2⟩

/-- Witness for C8: the admin deletes post 1 in the sample store; the
comment on post 1 is still there. -/
theorem delete_frame_witness :
    (delete_post db0 (some 1) 1).db.comments = db0.comments :=
  (delete_frame db0 (some 1) 1 (by decide) ⟨samplePost, by decide⟩).2.1

/-- Claim C10: an authenticated comment submission inserts a Comment
whose parent-post key is the URL post id without checking that such a
post exists; on a store where the post is absent the insertion goes
through and leaves a dangling comment, so comment creation does not
preserve referential integrity. -/
theorem addComment_dangling (db : Store) (sess : Session) (pid : Nat)
    (t : String) (u : User)
    (hcu : currentUser db sess = some u)
    (hmiss : getPost db pid = none) :
    (addComment db sess pid t).db.comments =
      db.comments ++ [⟨db.nextCommentId, t, u.id, pid⟩] ∧
    (addComment db sess pid t).db.posts = db.posts ∧
    danglingFreeB (addComment db sess pid t).db = false := by
  have hany : db.posts.any (fun p => p.id == pid) = false := by
    unfold getPost at hmiss
    rw [List.find?_eq_none] at hmiss
    simp only [List.any_eq_false]
    exact hmiss
  unfold addComment
  rw [hcu]
  refine ⟨rfl, rfl, ?_⟩
  unfold danglingFreeB
  simp [List.all_append, hany]

/-- Witness for C10: alice comments on the nonexistent post 99 in the
sample store; the resulting store has a dangling comment. -/
theorem addComment_dangling_witness :
    danglingFreeB (addComment db0 (some 2) 99 "hi").db = false :=
  (addComment_dangling db0 (some 2) 99 "hi" aliceUser (by decide) (by decide)).2.2

end Blog
